import Mathlib

/-!
Verification of the CLI argument-handling module of the polaroid image
decorator (`cli/create_images/validate.py`).

The module registers boolean flags on an argparse parser, sanitizes the
parsed flag mapping for conflicts (at most one edge-size flag, at most one
aspect-ratio flag, aspect-ratio incompatible with equal-borders), applies
defaults, and validates that the positional paths exist on disk.

The helper module `create_images/constants.py` and the `AspectRatio` class
are not part of the provided source; their contents (the flag-key lists,
the `EDGE_MAP` and `ASPECT_RATIO_MAP` dictionaries and the error-message
constants) are modelled from the specification, as noted on each
definition.
-/

deriving instance DecidableEq for Except

namespace Polaroid

/-- Modelled from the spec: the numeric border-width values stored in
`constants.EDGE_MAP` (`create_images/constants.py` is not part of the
provided source).  The six values are represented symbolically, one
constant per edge-size flag; no behaviour of the provided code depends on
their numeric magnitudes. -/
inductive EdgeSize where
  | nb
  | xs
  | sm
  | md
  | lg
  | xl
deriving DecidableEq

/-- Modelled from the spec: the `AspectRatio` value object
(`create_images/aspect_ratio.py` is not part of the provided source), a
plain width:height pair; as an ordinary Python object it is always
truthy. -/
structure AspectRatio where
  width : Nat
  height : Nat
deriving DecidableEq

/-- The canonical flag names (`dest` strings from `constants`): the keys of
the parsed-argument dictionary produced by `parser.parse_args()`, plus
`ratio_1_1`, which is a key of `ASPECT_RATIO_MAP` only (no 1:1 flag is
registered on the parser). -/
inductive Key where
  | image_paths
  | equal_borders
  | disable_borders
  | xs_borders
  | sm_borders
  | md_borders
  | lg_borders
  | xl_borders
  | ratio_3_2
  | ratio_5_4
  | ratio_16_9
  | insta_optimised
  | ratio_1_1
deriving DecidableEq

/-- Modelled from the spec: `constants.EDGE_MAP`, the dictionary from the
six edge-size flag names (no-border, xs, sm, md, lg, xl) to their numeric
border widths.  `none` encodes `key not in EDGE_MAP`. -/
def EDGE_MAP : Key → Option EdgeSize
  | Key.disable_borders => some EdgeSize.nb
  | Key.xs_borders => some EdgeSize.xs
  | Key.sm_borders => some EdgeSize.sm
  | Key.md_borders => some EdgeSize.md
  | Key.lg_borders => some EdgeSize.lg
  | Key.xl_borders => some EdgeSize.xl
  | _ => none

/-- Modelled from the spec: `constants.ASPECT_RATIO_MAP`, the dictionary
from the aspect-ratio flag names to ratio objects, holding 1:1, 3:2, 5:4
and 16:9.  `none` encodes `key not in ASPECT_RATIO_MAP`. -/
def ASPECT_RATIO_MAP : Key → Option AspectRatio
  | Key.ratio_1_1 => some ⟨1, 1⟩
  | Key.ratio_3_2 => some ⟨3, 2⟩
  | Key.ratio_5_4 => some ⟨5, 4⟩
  | Key.ratio_16_9 => some ⟨16, 9⟩
  | _ => none

/-- The ways the module terminates the process early: `parser.error(...)`
with one of the three conflict messages (modelled from the spec, the
message strings living in the missing `constants.py`), argparse's own
"required argument" failure for the positional, and
`sys.exit(INVALID_PATHS_PROVIDED)`.  All print to stderr and exit with a
non-zero status. -/
inductive ErrMsg where
  | tooManySizeFlags
  | tooManyAspectRatioFlags
  | equalBordersWithAspectRatio
  | missingRequiredImagePaths
  | invalidPathsProvided
deriving DecidableEq

/-- The parsed flag mapping `vars(parser.parse_args())` restricted to what
the sanitizer can observe: one boolean per registered `store_true` flag,
and the truthiness of the `image_paths` entry (a list of strings, whose
only possible use in `sanitize_input_args` is its truthiness; it is in
neither membership map, so even that is never consulted). -/
structure ParsedFlags where
  image_paths_nonempty : Bool
  equal_borders : Bool
  disable_borders : Bool
  xs_borders : Bool
  sm_borders : Bool
  md_borders : Bool
  lg_borders : Bool
  xl_borders : Bool
  ratio_3_2 : Bool
  ratio_5_4 : Bool
  ratio_16_9 : Bool
  insta_optimised : Bool
deriving DecidableEq

/-- The flag mapping is equivalent to a tuple of its twelve booleans. -/
def parsedFlagsEquiv :
    (Bool × Bool × Bool × Bool × Bool × Bool × Bool × Bool × Bool × Bool ×
      Bool × Bool) ≃ ParsedFlags where
  toFun t :=
    ⟨t.1, t.2.1, t.2.2.1, t.2.2.2.1, t.2.2.2.2.1, t.2.2.2.2.2.1,
     t.2.2.2.2.2.2.1, t.2.2.2.2.2.2.2.1, t.2.2.2.2.2.2.2.2.1,
     t.2.2.2.2.2.2.2.2.2.1, t.2.2.2.2.2.2.2.2.2.2.1, t.2.2.2.2.2.2.2.2.2.2.2⟩
  invFun a :=
    (a.image_paths_nonempty, a.equal_borders, a.disable_borders,
     a.xs_borders, a.sm_borders, a.md_borders, a.lg_borders, a.xl_borders,
     a.ratio_3_2, a.ratio_5_4, a.ratio_16_9, a.insta_optimised)
  left_inv _ := rfl
  right_inv _ := rfl

instance : Fintype ParsedFlags := Fintype.ofEquiv _ parsedFlagsEquiv

/-- The iteration order of `for key in args`: CPython dictionaries iterate
in insertion order, and argparse inserts each `dest` when the argument is
registered, so the order is the `add_argument` order in `parse_args`:
positional first, then equal-borders, the six edge-size flags, the three
aspect-ratio flags, and the instagram flag. -/
def argKeys : List Key :=
  [Key.image_paths, Key.equal_borders, Key.disable_borders, Key.xs_borders,
   Key.sm_borders, Key.md_borders, Key.lg_borders, Key.xl_borders,
   Key.ratio_3_2, Key.ratio_5_4, Key.ratio_16_9, Key.insta_optimised]

/-- Truthiness of `args[key]` for each key of the parsed mapping.
`ratio_1_1` is never a key of the mapping, so its value is arbitrary. -/
def truthy (args : ParsedFlags) : Key → Bool
  | Key.image_paths => args.image_paths_nonempty
  | Key.equal_borders => args.equal_borders
  | Key.disable_borders => args.disable_borders
  | Key.xs_borders => args.xs_borders
  | Key.sm_borders => args.sm_borders
  | Key.md_borders => args.md_borders
  | Key.lg_borders => args.lg_borders
  | Key.xl_borders => args.xl_borders
  | Key.ratio_3_2 => args.ratio_3_2
  | Key.ratio_5_4 => args.ratio_5_4
  | Key.ratio_16_9 => args.ratio_16_9
  | Key.insta_optimised => args.insta_optimised
  | Key.ratio_1_1 => false

/-- One iteration of the `for key in args` loop of `sanitize_input_args`:
the edge-size check (`key in EDGE_MAP and args[key]`) followed by the
aspect-ratio check (`key in ASPECT_RATIO_MAP and args[key]`), threading
the `edge_size` and `aspect_ratio` accumulators; `parser.error(...)`
terminates the process and is modelled as `Except.error`. -/
def sanitizeStep (args : ParsedFlags) (even_borders : Bool)
    (st : Option EdgeSize × Option AspectRatio) (key : Key) :
    Except ErrMsg (Option EdgeSize × Option AspectRatio) := do
  let (edge_size, aspect_ratio) := st
  let edge_size ←
    if (EDGE_MAP key).isSome && truthy args key then
      match edge_size with
      | none => pure (EDGE_MAP key)
      | some _ => Except.error ErrMsg.tooManySizeFlags
    else
      pure edge_size
  let aspect_ratio ←
    if (ASPECT_RATIO_MAP key).isSome && truthy args key then
      if even_borders then
        Except.error ErrMsg.equalBordersWithAspectRatio
      else
        match aspect_ratio with
        | none => pure (ASPECT_RATIO_MAP key)
        | some _ => Except.error ErrMsg.tooManyAspectRatioFlags
    else
      pure aspect_ratio
  return (edge_size, aspect_ratio)

/-- `sanitize_input_args(parser, args)` (validate.py lines 158–199): scans
the parsed mapping in dictionary order, accumulating `edge_size` and
`aspect_ratio` and erroring on conflicts, then defaults the aspect ratio
to `ASPECT_RATIO_MAP[RATIO_1_1]` when none was set and equal borders was
not requested (`not aspect_ratio` is `Option.isNone` because ratio
objects are truthy). -/
def sanitize_input_args (args : ParsedFlags) :
    Except ErrMsg (Option EdgeSize × Option AspectRatio) := do
  let even_borders := if args.equal_borders then true else false
  let (edge_size, aspect_ratio) ←
    argKeys.foldlM (sanitizeStep args even_borders) (none, none)
  let aspect_ratio :=
    if aspect_ratio.isNone && !even_borders then
      ASPECT_RATIO_MAP Key.ratio_1_1
    else
      aspect_ratio
  return (edge_size, aspect_ratio)

/-- The value argparse gives the `image_paths` positional (validate.py
lines 20–30): registered with `default=[default_path]` and
`nargs="+" if default_path == "" else "*"`, so with an empty/unset
`POLAROID_PATH` at least one positional is required (argparse errors out
otherwise), and with a non-empty one the default list `[default_path]` is
used when no positional is supplied. -/
def resolve_image_paths (default_path : String) (positional : List String) :
    Except ErrMsg (List String) :=
  if default_path = "" then
    if positional.isEmpty then
      Except.error ErrMsg.missingRequiredImagePaths
    else
      Except.ok positional
  else
    if positional.isEmpty then
      Except.ok [default_path]
    else
      Except.ok positional

/-- The `input_args` dictionary built by `parse_args` (validate.py lines
41–47). -/
structure InputArgs where
  edge_size : EdgeSize
  aspect_ratio : Option AspectRatio
  insta_optimised : Bool
deriving DecidableEq

/-- `parse_args()` (validate.py lines 12–49): resolves the positional
paths (from `os.environ.get(POLAROID_PATH, "")` and the command line),
sanitizes the flag mapping, substitutes `EDGE_MAP[MD_BORDERS]` (the value
`EdgeSize.md`) for a `None` edge size, and returns the paths together
with the `input_args` mapping.  The parsed mapping's `image_paths` entry
is the resolved list, whence its truthiness field. -/
def parse_args (polaroid_path_env : String) (positional : List String)
    (flags : ParsedFlags) : Except ErrMsg (List String × InputArgs) :=
  match resolve_image_paths polaroid_path_env positional with
  | Except.error e => Except.error e
  | Except.ok image_paths =>
    let args : ParsedFlags :=
      { flags with image_paths_nonempty := !image_paths.isEmpty }
    match sanitize_input_args args with
    | Except.error e => Except.error e
    | Except.ok st =>
      Except.ok (image_paths,
        { edge_size := st.1.getD EdgeSize.md
          aspect_ratio := st.2
          insta_optimised := args.insta_optimised })

/-- The filesystem as `validate_paths` observes it: the results of
`Path(p).is_file()` and `Path(p).is_dir()` for each path string. -/
structure FileSystem where
  is_file : String → Bool
  is_dir : String → Bool

/-- A `pathlib.Path` object, carrying the string it was constructed
from. -/
structure PathObj where
  raw : String
deriving DecidableEq

/-- The loop of `validate_paths` with its `valid_paths` accumulator: for
each path string, build the path object and either exit (first failure)
or append it. -/
def validate_paths_loop (fs : FileSystem) (valid_paths : List PathObj) :
    List String → Except ErrMsg (List PathObj)
  | [] => Except.ok valid_paths
  | path :: rest =>
    let check_path : PathObj := ⟨path⟩
    if !fs.is_file path && !fs.is_dir path then
      Except.error ErrMsg.invalidPathsProvided
    else
      validate_paths_loop fs (valid_paths ++ [check_path]) rest

/-- `validate_paths(img_paths)` (validate.py lines 202–218):
`sys.exit(INVALID_PATHS_PROVIDED)` — a non-zero exit carrying the
message — on the first path that is neither an existing file nor an
existing directory, else the list of path objects in input order. -/
def validate_paths (fs : FileSystem) (img_paths : List String) :
    Except ErrMsg (List PathObj) :=
  validate_paths_loop fs [] img_paths

/-- Number of edge-size flags set in the mapping: the keys that are in
`EDGE_MAP` and truthy. -/
def edgeFlagCount (args : ParsedFlags) : Nat :=
  (argKeys.filter fun k => (EDGE_MAP k).isSome && truthy args k).length

/-- Number of aspect-ratio flags set in the mapping: the keys that are in
`ASPECT_RATIO_MAP` and truthy. -/
def aspectFlagCount (args : ParsedFlags) : Nat :=
  (argKeys.filter fun k => (ASPECT_RATIO_MAP k).isSome && truthy args k).length

/-- Whether an `Except` result is a normal return rather than a process
exit. -/
def exceptOk {ε α : Type} : Except ε α → Bool
  | Except.ok _ => true
  | Except.error _ => false

/-- The edge size selected by the scan when at most one edge-size flag is
set: the `EDGE_MAP` value of the set flag, or `none`. -/
def selectedEdge (args : ParsedFlags) : Option EdgeSize :=
  if args.disable_borders then EDGE_MAP Key.disable_borders
  else if args.xs_borders then EDGE_MAP Key.xs_borders
  else if args.sm_borders then EDGE_MAP Key.sm_borders
  else if args.md_borders then EDGE_MAP Key.md_borders
  else if args.lg_borders then EDGE_MAP Key.lg_borders
  else if args.xl_borders then EDGE_MAP Key.xl_borders
  else none

/-- The aspect ratio selected by the scan when at most one aspect-ratio
flag is set: the `ASPECT_RATIO_MAP` value of the set flag, or `none`. -/
def selectedAspect (args : ParsedFlags) : Option AspectRatio :=
  if args.ratio_3_2 then ASPECT_RATIO_MAP Key.ratio_3_2
  else if args.ratio_5_4 then ASPECT_RATIO_MAP Key.ratio_5_4
  else if args.ratio_16_9 then ASPECT_RATIO_MAP Key.ratio_16_9
  else none

/-- Closed-form description of `sanitize_input_args`, against which the
implementation is checked exhaustively (`sanitize_eq_spec`): two or more
edge-size flags hit the size error first (the edge-size keys precede the
aspect-ratio keys in dictionary order); otherwise an aspect-ratio flag
together with equal borders hits the incompatibility error; otherwise two
or more aspect-ratio flags hit the aspect error; otherwise the scan
returns the selected edge size and the selected aspect ratio, defaulted
to 1:1 unless equal borders was requested. -/
def sanitizeSpec (args : ParsedFlags) :
    Except ErrMsg (Option EdgeSize × Option AspectRatio) :=
  if 2 ≤ edgeFlagCount args then
    Except.error ErrMsg.tooManySizeFlags
  else if args.equal_borders = true ∧ 1 ≤ aspectFlagCount args then
    Except.error ErrMsg.equalBordersWithAspectRatio
  else if 2 ≤ aspectFlagCount args then
    Except.error ErrMsg.tooManyAspectRatioFlags
  else
    Except.ok (selectedEdge args,
      if args.equal_borders then none
      else some ((selectedAspect args).getD ⟨1, 1⟩))

/-- `sanitize_input_args` never consults the truthiness of the
`image_paths` and `insta_optimised` entries: both keys are in neither
membership map, so their loop iterations reduce to the identity and both
sides of the equation reduce to the same term. -/
lemma sanitize_input_args_irrel (b1 b2 i1 i2 q c d e f g h i j k : Bool) :
    sanitize_input_args ⟨b1, q, c, d, e, f, g, h, i, j, k, i1⟩ =
    sanitize_input_args ⟨b2, q, c, d, e, f, g, h, i, j, k, i2⟩ := rfl

/-- `sanitizeSpec` likewise ignores the `image_paths` truthiness and the
instagram flag. -/
lemma sanitizeSpec_irrel (b1 b2 i1 i2 q c d e f g h i j k : Bool) :
    sanitizeSpec ⟨b1, q, c, d, e, f, g, h, i, j, k, i1⟩ =
    sanitizeSpec ⟨b2, q, c, d, e, f, g, h, i, j, k, i2⟩ := rfl

set_option maxRecDepth 4000 in
set_option maxHeartbeats 2000000 in
/-- Exhaustive check of the closed form over the ten booleans the
sanitizer consults (equal borders, the six edge-size flags, the three
aspect-ratio flags). -/
lemma sanitize_eq_spec_aux : ∀ q c d e f g h i j k : Bool,
    sanitize_input_args ⟨true, q, c, d, e, f, g, h, i, j, k, true⟩ =
    sanitizeSpec ⟨true, q, c, d, e, f, g, h, i, j, k, true⟩ := by decide

/-- The implementation agrees with its closed-form description on every
parsed flag mapping. -/
lemma sanitize_eq_spec (args : ParsedFlags) :
    sanitize_input_args args = sanitizeSpec args := by
  obtain ⟨b, q, c, d, e, f, g, h, i, j, k, l⟩ := args
  calc sanitize_input_args ⟨b, q, c, d, e, f, g, h, i, j, k, l⟩
      = sanitize_input_args ⟨true, q, c, d, e, f, g, h, i, j, k, true⟩ :=
        sanitize_input_args_irrel b true l true q c d e f g h i j k
    _ = sanitizeSpec ⟨true, q, c, d, e, f, g, h, i, j, k, true⟩ :=
        sanitize_eq_spec_aux q c d e f g h i j k
    _ = sanitizeSpec ⟨b, q, c, d, e, f, g, h, i, j, k, l⟩ :=
        sanitizeSpec_irrel true b true l q c d e f g h i j k

/-- The edge-flag count is the number of set flags among the six edge-size
booleans. -/
lemma edgeFlagCount_eq (args : ParsedFlags) :
    edgeFlagCount args =
      (cond args.disable_borders 1 0) + (cond args.xs_borders 1 0) +
      (cond args.sm_borders 1 0) + (cond args.md_borders 1 0) +
      (cond args.lg_borders 1 0) + (cond args.xl_borders 1 0) := by
  obtain ⟨b, q, c, d, e, f, g, h, i, j, k, l⟩ := args
  cases c <;> cases d <;> cases e <;> cases f <;> cases g <;> cases h <;> rfl

/-- The aspect-flag count is the number of set flags among the three
aspect-ratio booleans. -/
lemma aspectFlagCount_eq (args : ParsedFlags) :
    aspectFlagCount args =
      (cond args.ratio_3_2 1 0) + (cond args.ratio_5_4 1 0) +
      (cond args.ratio_16_9 1 0) := by
  obtain ⟨b, q, c, d, e, f, g, h, i, j, k, l⟩ := args
  cases i <;> cases j <;> cases k <;> rfl

/-- A mapping with no aspect-ratio flag set has all three aspect-ratio
booleans false. -/
lemma aspect_flags_false_of_count_zero (args : ParsedFlags)
    (h : aspectFlagCount args = 0) :
    args.ratio_3_2 = false ∧ args.ratio_5_4 = false ∧
      args.ratio_16_9 = false := by
  rw [aspectFlagCount_eq] at h
  cases h32 : args.ratio_3_2 <;> cases h54 : args.ratio_5_4 <;>
    cases h169 : args.ratio_16_9 <;> simp_all

/-- A mapping with no edge-size flag set has all six edge-size booleans
false. -/
lemma edge_flags_false_of_count_zero (args : ParsedFlags)
    (h : edgeFlagCount args = 0) :
    args.disable_borders = false ∧ args.xs_borders = false ∧
      args.sm_borders = false ∧ args.md_borders = false ∧
      args.lg_borders = false ∧ args.xl_borders = false := by
  rw [edgeFlagCount_eq] at h
  cases hc : args.disable_borders <;> cases hd : args.xs_borders <;>
    cases he : args.sm_borders <;> cases hf : args.md_borders <;>
    cases hg : args.lg_borders <;> cases hh : args.xl_borders <;> simp_all

/-- Shorthand: `sanitize_input_args` reaches the size-flag error exactly
when two or more edge-size flags are set. -/
lemma sanitize_size_error (args : ParsedFlags) (h : 2 ≤ edgeFlagCount args) :
    sanitize_input_args args = Except.error ErrMsg.tooManySizeFlags := by
  rw [sanitize_eq_spec]
  unfold sanitizeSpec
  rw [if_pos h]

/-- The all-defaults flag mapping: no flag set, no positional path. -/
def wAllFalse : ParsedFlags :=
  ⟨false, false, false, false, false, false, false, false, false, false,
   false, false⟩

/-- A mapping with the `--xs` and `--md` size flags both set. -/
def wTwoEdge : ParsedFlags :=
  { wAllFalse with xs_borders := true, md_borders := true }

/-- A mapping with only the `--3-2` aspect-ratio flag set. -/
def wOneAspect : ParsedFlags := { wAllFalse with ratio_3_2 := true }

/-- A mapping with the `--3-2` and `--5-4` aspect-ratio flags both set. -/
def wTwoAspect : ParsedFlags :=
  { wAllFalse with ratio_3_2 := true, ratio_5_4 := true }

/-- A mapping with equal borders requested together with the `--3-2`
aspect-ratio flag. -/
def wEqAspect : ParsedFlags :=
  { wAllFalse with equal_borders := true, ratio_3_2 := true }

/-- A mapping with only equal borders requested. -/
def wEqOnly : ParsedFlags := { wAllFalse with equal_borders := true }

/-- C1: for every parsed flag mapping with zero or one of the six
edge-size flags set, `sanitize_input_args` never terminates through the
parser's "too many size flags" error path; for every mapping with two or
more set, it terminates with exactly that error. -/
theorem C1_size_flag_exclusivity (args : ParsedFlags) :
    (edgeFlagCount args ≤ 1 →
      sanitize_input_args args ≠ Except.error ErrMsg.tooManySizeFlags) ∧
    (2 ≤ edgeFlagCount args →
      sanitize_input_args args = Except.error ErrMsg.tooManySizeFlags) := by
  constructor
  · intro hle
    rw [sanitize_eq_spec]
    unfold sanitizeSpec
    split_ifs with h1 h2 h3 h4
    · omega
    all_goals simp
  · exact sanitize_size_error args

/-- C1 witness: with no size flag the size error is not hit; with `--xs`
and `--md` together it is. -/
theorem C1_size_flag_exclusivity_witness :
    sanitize_input_args wAllFalse ≠ Except.error ErrMsg.tooManySizeFlags ∧
    sanitize_input_args wTwoEdge = Except.error ErrMsg.tooManySizeFlags :=
  ⟨(C1_size_flag_exclusivity wAllFalse).1 (by decide),
   (C1_size_flag_exclusivity wTwoEdge).2 (by decide)⟩

/-- C2 counterexample: the mapping with only the `--xs` and `--md` size
flags set has zero aspect-ratio flags and equal borders unset, yet
`sanitize_input_args` does not succeed on it: it terminates with the
too-many-size-flags error. -/
theorem C2_counterexample :
    aspectFlagCount wTwoEdge = 0 ∧ wTwoEdge.equal_borders = false ∧
    sanitize_input_args wTwoEdge = Except.error ErrMsg.tooManySizeFlags := by
  decide

/-- C2 (amended): restricted to mappings with at most one edge-size flag
set (otherwise the size error fires first): zero or one aspect-ratio flag
without equal borders sanitizes successfully; two or more aspect-ratio
flags without equal borders terminate with the "too many aspect-ratio
flags" error; at least one aspect-ratio flag together with equal borders
terminates with the incompatibility error. -/
theorem C2_aspect_flag_exclusivity (args : ParsedFlags)
    (hedge : edgeFlagCount args ≤ 1) :
    (aspectFlagCount args ≤ 1 ∧ args.equal_borders = false →
      exceptOk (sanitize_input_args args) = true) ∧
    (2 ≤ aspectFlagCount args ∧ args.equal_borders = false →
      sanitize_input_args args =
        Except.error ErrMsg.tooManyAspectRatioFlags) ∧
    (1 ≤ aspectFlagCount args ∧ args.equal_borders = true →
      sanitize_input_args args =
        Except.error ErrMsg.equalBordersWithAspectRatio) := by
  rw [sanitize_eq_spec]
  unfold sanitizeSpec
  have h1 : ¬ 2 ≤ edgeFlagCount args := by omega
  rw [if_neg h1]
  refine ⟨?_, ?_, ?_⟩
  · rintro ⟨ha, hq⟩
    have h2 : ¬ (args.equal_borders = true ∧ 1 ≤ aspectFlagCount args) := by
      rintro ⟨hq2, _⟩
      rw [hq] at hq2
      cases hq2
    rw [if_neg h2, if_neg (by omega : ¬ 2 ≤ aspectFlagCount args)]
    rfl
  · rintro ⟨ha, hq⟩
    have h2 : ¬ (args.equal_borders = true ∧ 1 ≤ aspectFlagCount args) := by
      rintro ⟨hq2, _⟩
      rw [hq] at hq2
      cases hq2
    rw [if_neg h2, if_pos ha]
  · rintro ⟨ha, hq⟩
    rw [if_pos ⟨hq, ha⟩]

/-- C2 witness: one aspect flag alone succeeds, two terminate with the
aspect error, one plus equal borders terminates with the incompatibility
error. -/
theorem C2_aspect_flag_exclusivity_witness :
    exceptOk (sanitize_input_args wOneAspect) = true ∧
    sanitize_input_args wTwoAspect =
      Except.error ErrMsg.tooManyAspectRatioFlags ∧
    sanitize_input_args wEqAspect =
      Except.error ErrMsg.equalBordersWithAspectRatio :=
  ⟨(C2_aspect_flag_exclusivity wOneAspect (by decide)).1 (by decide),
   (C2_aspect_flag_exclusivity wTwoAspect (by decide)).2.1 (by decide),
   (C2_aspect_flag_exclusivity wEqAspect (by decide)).2.2 (by decide)⟩

/-- C3: on every mapping with no aspect-ratio flag and equal borders not
requested, whenever `sanitize_input_args` returns, the aspect-ratio
component it returns is the 1:1 ratio object of `ASPECT_RATIO_MAP`. -/
theorem C3_aspect_defaults_to_square (args : ParsedFlags)
    (haspect : aspectFlagCount args = 0) (heq : args.equal_borders = false)
    (hok : exceptOk (sanitize_input_args args) = true) :
    Except.map Prod.snd (sanitize_input_args args) =
      Except.ok (ASPECT_RATIO_MAP Key.ratio_1_1) := by
  obtain ⟨h32, h54, h169⟩ := aspect_flags_false_of_count_zero args haspect
  have hsel : selectedAspect args = none := by
    simp [selectedAspect, h32, h54, h169]
  rw [sanitize_eq_spec] at hok ⊢
  unfold sanitizeSpec at hok ⊢
  split_ifs at hok ⊢ with h1 h2 h3 h4
  · cases hok
  · cases hok
  · cases hok
  · exact absurd h4 (by simp [heq])
  · simp [Except.map, hsel, ASPECT_RATIO_MAP]

/-- C3 witness: the all-defaults mapping sanitizes to the 1:1 aspect
ratio. -/
theorem C3_aspect_defaults_to_square_witness :
    Except.map Prod.snd (sanitize_input_args wAllFalse) =
      Except.ok (ASPECT_RATIO_MAP Key.ratio_1_1) :=
  C3_aspect_defaults_to_square wAllFalse (by decide) (by decide) (by decide)

/-- A mapping with equal borders together with two size flags. -/
def wEqTwoEdge : ParsedFlags :=
  { wEqOnly with xs_borders := true, md_borders := true }

/-- C5 counterexample: a mapping with equal borders set and no
aspect-ratio flag on which `sanitize_input_args` does not succeed: the
`--xs --md` conflict terminates it with the size error. -/
theorem C5_counterexample :
    wEqTwoEdge.equal_borders = true ∧ aspectFlagCount wEqTwoEdge = 0 ∧
    sanitize_input_args wEqTwoEdge =
      Except.error ErrMsg.tooManySizeFlags := by
  decide

/-- C5 (amended): with equal borders set, no aspect-ratio flag set and at
most one edge-size flag set (otherwise the size error fires),
`sanitize_input_args` succeeds and returns `None` as the aspect-ratio
component; and `None` is returned as the aspect-ratio component only when
equal borders is set. -/
theorem C5_equal_borders_yield_no_aspect (args : ParsedFlags) :
    (args.equal_borders = true ∧ aspectFlagCount args = 0 ∧
        edgeFlagCount args ≤ 1 →
      Except.map Prod.snd (sanitize_input_args args) = Except.ok none) ∧
    (Except.map Prod.snd (sanitize_input_args args) = Except.ok none →
      args.equal_borders = true) := by
  rw [sanitize_eq_spec]
  unfold sanitizeSpec
  constructor
  · rintro ⟨hq, ha, he⟩
    rw [if_neg (by omega : ¬ 2 ≤ edgeFlagCount args),
        if_neg (show ¬ (args.equal_borders = true ∧
          1 ≤ aspectFlagCount args) by rintro ⟨_, h⟩; omega),
        if_neg (by omega : ¬ 2 ≤ aspectFlagCount args), if_pos hq]
    rfl
  · intro h
    split_ifs at h with h1 h2 h3 h4
    · cases h
    · cases h
    · cases h
    · exact h4
    · simp [Except.map] at h

/-- C5 witness: equal borders alone succeeds with no aspect ratio, and
that same run exhibits the only-if direction. -/
theorem C5_equal_borders_yield_no_aspect_witness :
    Except.map Prod.snd (sanitize_input_args wEqOnly) = Except.ok none ∧
    wEqOnly.equal_borders = true :=
  ⟨(C5_equal_borders_yield_no_aspect wEqOnly).1 (by decide),
   (C5_equal_borders_yield_no_aspect wEqOnly).2
     ((C5_equal_borders_yield_no_aspect wEqOnly).1 (by decide))⟩

/-- A mapping with only the no-border flag set. -/
def wNbOnly : ParsedFlags := { wAllFalse with disable_borders := true }

/-- A mapping with the no-border flag and the large flag set. -/
def wNbPlusLg : ParsedFlags :=
  { wAllFalse with disable_borders := true, lg_borders := true }

/-- C9: the no-border flag is an ordinary member of `EDGE_MAP`: with only
it set among the edge-size flags, whenever `sanitize_input_args` returns,
the edge-size component is `EDGE_MAP`'s value for the no-border key (no
special zero case); and combined with any other edge-size flag it
terminates with the too-many-size-flags error. -/
theorem C9_no_border_is_ordinary (args : ParsedFlags) :
    (args.disable_borders = true ∧ args.xs_borders = false ∧
        args.sm_borders = false ∧ args.md_borders = false ∧
        args.lg_borders = false ∧ args.xl_borders = false →
      exceptOk (sanitize_input_args args) = true →
      Except.map Prod.fst (sanitize_input_args args) =
        Except.ok (EDGE_MAP Key.disable_borders)) ∧
    (args.disable_borders = true ∧
        (args.xs_borders || args.sm_borders || args.md_borders ||
          args.lg_borders || args.xl_borders) = true →
      sanitize_input_args args = Except.error ErrMsg.tooManySizeFlags) := by
  constructor
  · rintro ⟨hnb, hxs, hsm, hmd, hlg, hxl⟩ hok
    have hsel : selectedEdge args = EDGE_MAP Key.disable_borders := by
      simp [selectedEdge, hnb]
    rw [sanitize_eq_spec] at hok ⊢
    unfold sanitizeSpec at hok ⊢
    split_ifs at hok ⊢ with h1 h2 h3 h4
    · cases hok
    · cases hok
    · cases hok
    · simp [Except.map, hsel]
    · simp [Except.map, hsel]
  · rintro ⟨hnb, hother⟩
    apply sanitize_size_error
    rw [edgeFlagCount_eq, hnb]
    simp only [Bool.or_eq_true] at hother
    rcases hother with ((((h | h) | h) | h) | h) <;>
      rw [h] <;> simp only [Bool.cond_true] <;> omega

/-- C9 witness: no-border alone selects `EDGE_MAP`'s no-border value;
no-border plus large is rejected as too many size flags. -/
theorem C9_no_border_is_ordinary_witness :
    Except.map Prod.fst (sanitize_input_args wNbOnly) =
      Except.ok (EDGE_MAP Key.disable_borders) ∧
    sanitize_input_args wNbPlusLg =
      Except.error ErrMsg.tooManySizeFlags :=
  ⟨(C9_no_border_is_ordinary wNbOnly).1 (by decide) (by decide),
   (C9_no_border_is_ordinary wNbPlusLg).2 (by decide)⟩

/-- A successful `parse_args` run decomposes into a successful path
resolution, a successful sanitization of the flag mapping (whose
`image_paths` entry is the resolved list), and the assembly of the
`input_args` mapping. -/
lemma parse_args_ok_shape (env : String) (positional : List String)
    (flags : ParsedFlags) (paths : List String) (ia : InputArgs)
    (h : parse_args env positional flags = Except.ok (paths, ia)) :
    resolve_image_paths env positional = Except.ok paths ∧
    ∃ es ar,
      sanitize_input_args
        { flags with image_paths_nonempty := !paths.isEmpty } =
          Except.ok (es, ar) ∧
      ia.edge_size = es.getD EdgeSize.md ∧ ia.aspect_ratio = ar ∧
      ia.insta_optimised = flags.insta_optimised := by
  unfold parse_args at h
  split at h
  · cases h
  · rename_i ip heq
    dsimp only at h
    split at h
    · cases h
    · rename_i st heq2
      simp only [Except.ok.injEq, Prod.mk.injEq] at h
      obtain ⟨h1, h2⟩ := h
      subst h1
      refine ⟨heq, st.1, st.2, ?_, ?_, ?_, ?_⟩
      · simpa using heq2
      · rw [← h2]
      · rw [← h2]
      · rw [← h2]

/-- The `input_args` mapping built from the all-defaults run:
medium edge size, 1:1 aspect ratio, instagram optimization off. -/
def iaDefault : InputArgs where
  edge_size := EdgeSize.md
  aspect_ratio := some ⟨1, 1⟩
  insta_optimised := false

/-- C4: whenever `parse_args` returns and no edge-size flag was set, the
edge-size entry of the returned `input_args` mapping is the medium value
of `EDGE_MAP` (substituted for the `None` that sanitization returned). -/
theorem C4_edge_defaults_to_medium (env : String) (positional : List String)
    (flags : ParsedFlags) (hedge : edgeFlagCount flags = 0)
    (paths : List String) (ia : InputArgs)
    (hok : parse_args env positional flags = Except.ok (paths, ia)) :
    some ia.edge_size = EDGE_MAP Key.md_borders := by
  obtain ⟨-, es, ar, hs, hes, -, -⟩ :=
    parse_args_ok_shape env positional flags paths ia hok
  obtain ⟨hc, hd, he, hf, hg, hh⟩ := edge_flags_false_of_count_zero flags hedge
  rw [sanitize_eq_spec] at hs
  unfold sanitizeSpec at hs
  split_ifs at hs with h1 h2 h3 h4 <;> simp at hs
  all_goals
    obtain ⟨hes2, -⟩ := hs
  all_goals
    rw [hes, ← hes2]
  all_goals
    simp [selectedEdge, hc, hd, he, hf, hg, hh, EDGE_MAP]

/-- C4 witness: the all-defaults run yields the medium edge size. -/
theorem C4_edge_defaults_to_medium_witness :
    some iaDefault.edge_size = EDGE_MAP Key.md_borders :=
  C4_edge_defaults_to_medium "/tmp/photos" [] wAllFalse (by decide)
    ["/tmp/photos"] iaDefault (by decide)

/-- C8: with a non-empty `POLAROID_PATH` and no positional argument, any
returning `parse_args` run uses the one-element default list holding
exactly that string; with an unset or empty `POLAROID_PATH`, the
positional requires at least one value, so argparse errors out. -/
theorem C8_polaroid_path_default (env : String) (flags : ParsedFlags) :
    (env ≠ "" → ∀ paths ia,
      parse_args env [] flags = Except.ok (paths, ia) → paths = [env]) ∧
    parse_args "" [] flags =
      Except.error ErrMsg.missingRequiredImagePaths := by
  constructor
  · intro henv paths ia hok
    obtain ⟨hr, -⟩ := parse_args_ok_shape env [] flags paths ia hok
    unfold resolve_image_paths at hr
    rw [if_neg henv] at hr
    simp at hr
    exact hr.symm
  · unfold parse_args resolve_image_paths
    simp

/-- C8 witness: `POLAROID_PATH=/tmp/photos` with no positional argument
yields the path list containing exactly that string. -/
theorem C8_polaroid_path_default_witness :
    (["/tmp/photos"] : List String) = ["/tmp/photos"] :=
  (C8_polaroid_path_default "/tmp/photos" wAllFalse).1 (by decide)
    ["/tmp/photos"] iaDefault (by decide)

/-- C10: the instagram flag is independent: flipping it never changes the
result of sanitization (in particular it triggers no sanitization error
and changes neither the edge size nor the aspect ratio), and its parsed
value is passed through unchanged into the `input_args` mapping. -/
theorem C10_instagram_flag_independent (env : String)
    (positional : List String) (flags : ParsedFlags) :
    (∀ b, sanitize_input_args { flags with insta_optimised := b } =
      sanitize_input_args flags) ∧
    (∀ paths ia, parse_args env positional flags = Except.ok (paths, ia) →
      ia.insta_optimised = flags.insta_optimised) := by
  constructor
  · intro b
    obtain ⟨a2, q, c, d, e, f, g, h, i, j, k, l⟩ := flags
    exact sanitize_input_args_irrel a2 a2 b l q c d e f g h i j k
  · intro paths ia hok
    obtain ⟨-, es, ar, -, -, -, hinsta⟩ :=
      parse_args_ok_shape env positional flags paths ia hok
    exact hinsta

/-- C10 witness: the all-defaults run passes the instagram flag value
through unchanged. -/
theorem C10_instagram_flag_independent_witness :
    iaDefault.insta_optimised = wAllFalse.insta_optimised :=
  (C10_instagram_flag_independent "/tmp/photos" [] wAllFalse).2
    ["/tmp/photos"] iaDefault (by decide)

/-- On a prefix of valid paths followed by an invalid one, the
`validate_paths` loop exits with the invalid-paths message, whatever the
accumulator and whatever comes after the invalid path. -/
lemma validate_paths_loop_error (fs : FileSystem) (bad : String)
    (rest : List String) (hbad1 : fs.is_file bad = false)
    (hbad2 : fs.is_dir bad = false) :
    ∀ (good : List String) (acc : List PathObj),
      (∀ p ∈ good, (fs.is_file p || fs.is_dir p) = true) →
      validate_paths_loop fs acc (good ++ bad :: rest) =
        Except.error ErrMsg.invalidPathsProvided := by
  intro good
  induction good with
  | nil =>
    intro acc _
    unfold validate_paths_loop
    simp [hbad1, hbad2]
  | cons p ps ih =>
    intro acc hgood
    have hcond : (!fs.is_file p && !fs.is_dir p) = false := by
      have hp := hgood p (by simp)
      cases hf2 : fs.is_file p <;> cases hd2 : fs.is_dir p <;> simp_all
    rw [List.cons_append]
    unfold validate_paths_loop
    rw [hcond]
    simp only [Bool.false_eq_true, if_false]
    exact ih (acc ++ [⟨p⟩]) (fun q hq => hgood q (by simp [hq]))

/-- A filesystem on which exactly `./exists.jpg` is a file and nothing is
a directory. -/
def fsExample : FileSystem where
  is_file p := p == "./exists.jpg"
  is_dir _ := false

/-- C6: on any path list formed of existing paths followed by one that is
neither an existing file nor an existing directory, `validate_paths`
terminates the process with the invalid-paths message at that first
failure — uniformly in whatever paths follow it, which are therefore
never examined — instead of returning. -/
theorem C6_invalid_path_exits_at_first (fs : FileSystem)
    (good : List String) (bad : String) (rest : List String)
    (hgood : ∀ p ∈ good, (fs.is_file p || fs.is_dir p) = true)
    (hbad1 : fs.is_file bad = false) (hbad2 : fs.is_dir bad = false) :
    validate_paths fs (good ++ bad :: rest) =
      Except.error ErrMsg.invalidPathsProvided :=
  validate_paths_loop_error fs bad rest hbad1 hbad2 good [] hgood

/-- C6 witness: of `["./exists.jpg", "./missing.jpg"]` only the first
exists, and validation exits with the invalid-paths error. -/
theorem C6_invalid_path_exits_at_first_witness :
    validate_paths fsExample (["./exists.jpg"] ++ "./missing.jpg" :: []) =
      Except.error ErrMsg.invalidPathsProvided :=
  C6_invalid_path_exits_at_first fsExample ["./exists.jpg"] "./missing.jpg"
    [] (by decide) (by decide) (by decide)

/-- The `validate_paths` loop maps every path string of an all-valid list
to its path object, appending to the accumulator in input order. -/
lemma validate_paths_loop_ok (fs : FileSystem) :
    ∀ (paths : List String) (acc : List PathObj),
      (∀ p ∈ paths, (fs.is_file p || fs.is_dir p) = true) →
      validate_paths_loop fs acc paths =
        Except.ok (acc ++ paths.map PathObj.mk) := by
  intro paths
  induction paths with
  | nil =>
    intro acc _
    simp [validate_paths_loop]
  | cons p ps ih =>
    intro acc hp
    have hcond : (!fs.is_file p && !fs.is_dir p) = false := by
      have hp1 := hp p (by simp)
      cases hf2 : fs.is_file p <;> cases hd2 : fs.is_dir p <;> simp_all
    unfold validate_paths_loop
    rw [hcond]
    simp only [Bool.false_eq_true, if_false]
    rw [ih (acc ++ [PathObj.mk p]) (fun q hq => hp q (by simp [hq]))]
    simp

/-- C7: on a list in which every element is an existing file or
directory, `validate_paths` returns the list of path objects constructed
from the input strings, same length, in the original order. -/
theorem C7_valid_paths_returned_in_order (fs : FileSystem)
    (paths : List String)
    (h : ∀ p ∈ paths, (fs.is_file p || fs.is_dir p) = true) :
    validate_paths fs paths = Except.ok (paths.map PathObj.mk) := by
  unfold validate_paths
  rw [validate_paths_loop_ok fs paths [] h]
  simp

/-- C7 witness: a single existing path validates to its path object. -/
theorem C7_valid_paths_returned_in_order_witness :
    validate_paths fsExample ["./exists.jpg"] =
      Except.ok (["./exists.jpg"].map PathObj.mk) :=
  C7_valid_paths_returned_in_order fsExample ["./exists.jpg"] (by decide)

end Polaroid
